import Mathlib

/-!
Shallow embedding of the access-control core of a live-streaming server
(JWT session middleware, stream-key registry, presence check, sliding-window
rate limiter, and the publish/end callbacks), together with proofs of the
behavioural claims about it.

JavaScript strings are modelled as `List Char` (`Str`); JS truthiness of a
possibly-absent string value is modelled on `Option Str` (absent/null ↦
`none`, empty string falsy).  Machine time is modelled as `Int`
(milliseconds, or seconds where the source uses seconds).
-/

/-- JavaScript strings, modelled as lists of characters. -/
abbrev Str := List Char

/-- Truthiness of a possibly-absent JS string value: `null`/`undefined` and
the empty string are falsy, every other string is truthy. -/
def jsTruthy : Option Str → Bool
  | none => false
  | some s => !s.isEmpty

/-! ### Character classes (from `src/server/middleware/streamMiddleware.js`)

`validateStreamKey` tests the regex `^[a-zA-Z0-9_-]+$` and then the
sensitive-character class `[<>{}[\]\\]`.  Regex character ranges are code
point ranges, so the classes are defined on `Char.toNat`. -/

/-- A character matched by `[a-zA-Z0-9_-]`. -/
def isKeyChar (c : Char) : Bool :=
  (97 ≤ c.toNat && c.toNat ≤ 122) ||  -- a-z
  (65 ≤ c.toNat && c.toNat ≤ 90) ||   -- A-Z
  (48 ≤ c.toNat && c.toNat ≤ 57) ||   -- 0-9
  c.toNat = 95 ||                     -- _
  c.toNat = 45                        -- -

/-- A character matched by the sensitive class `[<>{}[\]\\]`,
i.e. one of `<` `>` `{` `}` `[` `]` `\`. -/
def isSensitiveChar (c : Char) : Bool :=
  c.toNat = 60 || c.toNat = 62 || c.toNat = 123 || c.toNat = 125 ||
  c.toNat = 91 || c.toNat = 93 || c.toNat = 92

/-- A character matched by the registration username regex `[a-zA-Z0-9_]`
(`validateRegistration` in `src/server/routes/auth.js`). -/
def isUsernameChar (c : Char) : Bool :=
  (97 ≤ c.toNat && c.toNat ≤ 122) ||
  (65 ≤ c.toNat && c.toNat ≤ 90) ||
  (48 ≤ c.toNat && c.toNat ≤ 57) ||
  c.toNat = 95

/-- A lowercase hexadecimal digit (the characters of a `uuidv4()` value
with its dashes stripped). -/
def isLowerHexChar (c : Char) : Bool :=
  (48 ≤ c.toNat && c.toNat ≤ 57) || (97 ≤ c.toNat && c.toNat ≤ 102)

/-! ### `validateStreamKey` (src/server/middleware/streamMiddleware.js, lines 4–26) -/

/-- A JS value passed to `validateStreamKey`: either a string or some
non-string value (the source rejects the latter via
`typeof streamKey !== 'string'`). -/
inductive JsValue where
  | str (s : Str)
  | nonStringValue
deriving DecidableEq

/-- Function `validateStreamKey` from `src/server/middleware/streamMiddleware.js`:
rejects falsy/non-string input, then length outside [10,100], then failure
of `^[a-zA-Z0-9_-]+$` (the string is non-empty at that point since its
length is at least 10), then presence of a sensitive character. -/
def validateStreamKey (v : JsValue) : Bool :=
  match v with
  | .nonStringValue => false
  | .str s =>
    if s.isEmpty then false
    else if s.length < 10 || 100 < s.length then false
    else if !(s.all isKeyChar) then false
    else if s.any isSensitiveChar then false
    else true

/-! ### `isUserStreaming` (src/server/middleware/streamMiddleware.js, lines 31–48) -/

/-- The fields of a user record read by `isUserStreaming`.
`lastStreamTime` is a nullable `Date`, modelled as an optional instant in
milliseconds. -/
structure StreamView where
  lastStreamTime : Option Int
deriving DecidableEq

/-- Function `isUserStreaming` from `src/server/middleware/streamMiddleware.js`:
false for a missing record or a null `lastStreamTime`; false (with a logged
anomaly) when `lastStreamTime` lies in the future; otherwise true exactly
when less than `streamTimeout = 60000` ms have elapsed. -/
def isUserStreaming (now : Int) (user : Option StreamView) : Bool :=
  match user with
  | none => false
  | some u =>
    match u.lastStreamTime with
    | none => false
    | some t =>
      if now < t then false
      else decide (now - t < 60000)

/-! ### JWT model

`jsonwebtoken` is used opaquely: `jwt.verify(token, secret)` either returns
a decoded payload or throws a typed error.  The primitive is modelled as a
function from the token string to an outcome; the middleware under
verification is parametric in it. -/

/-- A decoded JWT payload as read by the middleware.  String claims are
`Option Str` (`none` = claim absent); `exp`/`iat` are seconds since
epoch. -/
structure JwtPayload where
  id : Option Str
  username : Option Str
  streamKey : Option Str
  iss : Option Str
  aud : Option Str
  iat : Int
  exp : Int
deriving DecidableEq

/-- The outcome of `jwt.verify(token, secret)`: a payload, or one of the
library's typed errors (`TokenExpiredError`, `JsonWebTokenError`,
`NotBeforeError`), or any other thrown error. -/
inductive JwtOutcome where
  | ok (p : JwtPayload)
  | tokenExpiredError
  | jsonWebTokenError
  | notBeforeError
  | otherError
deriving DecidableEq

/-- The result of running an Express middleware: either `next()` was called
with a decoded user attached (plus the expires-soon advisory flag), or a
JSON response with an HTTP status and an error code was sent. -/
inductive MwOutcome where
  | next (p : JwtPayload) (expiresSoon : Bool)
  | respond (status : Nat) (code : Str)
deriving DecidableEq

/-! ### Token extraction and `verifyToken`
(src/server/middleware/authMiddleware.js, lines 23–158) -/

/-- The token carriers of an incoming request as read by `verifyToken`:
`req.headers.authorization`, `req.query.token`, `req.body.token`,
`req.cookies.token`.  `none` covers both a missing container object and a
missing field. -/
structure AuthRequest where
  authorization : Option Str
  queryToken : Option Str
  bodyToken : Option Str
  cookieToken : Option Str

/-- Step 1 of extraction: the bearer part of the `Authorization` header.
`token = authHeader.substring(7)` when the header starts with
`"Bearer "`; note the result may be the empty string. -/
def bearerToken (auth : Option Str) : Option Str :=
  match auth with
  | none => none
  | some h => if "Bearer ".data.isPrefixOf h then some (h.drop 7) else none

/-- One fallback step of extraction: `if (!token && next) token = next`,
where a carrier value is used only when the current token is falsy and the
carrier is truthy. -/
def jsOrToken (cur nxt : Option Str) : Option Str :=
  if !jsTruthy cur && jsTruthy nxt then nxt else cur

/-- The raw `token` variable after the four extraction steps of
`verifyToken` (header, query, body, cookies, in that order). -/
def extractTokenRaw (req : AuthRequest) : Option Str :=
  jsOrToken (jsOrToken (jsOrToken (bearerToken req.authorization)
    req.queryToken) req.bodyToken) req.cookieToken

/-- The extracted token, collapsed through the final `if (!token)` check:
`none` exactly when the raw token is falsy. -/
def extractToken (req : AuthRequest) : Option Str :=
  match extractTokenRaw req with
  | none => none
  | some s => if s.isEmpty then none else some s

/-- Expected issuer tag checked by `verifyToken`. -/
def expectedIssuer : Str := "live-streaming-platform".data

/-- Expected audience tag checked by `verifyToken`. -/
def expectedAudience : Str := "streaming-users".data

/-- Function `verifyToken` from `src/server/middleware/authMiddleware.js`:
extraction (NO_TOKEN when all carriers are falsy), environment check
(SERVER_CONFIG_ERROR when the signing secret is absent), `jwt.verify`
(with the catch block mapping the typed errors), required-claims check
(INVALID_TOKEN_FORMAT), conditional issuer and audience checks
(INVALID_ISSUER / INVALID_AUDIENCE, applied only to a truthy claim), then
`next()` with the expires-soon advisory when under 3600 s remain.
`now` is the current time in seconds, `secretPresent` models
`process.env.JWT_SECRET` being set, and `jv` models
`jwt.verify(·, JWT_SECRET)`. -/
def verifyToken (now : Int) (secretPresent : Bool) (jv : Str → JwtOutcome)
    (req : AuthRequest) : MwOutcome :=
  match extractToken req with
  | none => .respond 401 "NO_TOKEN".data
  | some token =>
    if !secretPresent then .respond 500 "SERVER_CONFIG_ERROR".data
    else
      match jv token with
      | .tokenExpiredError => .respond 401 "TOKEN_EXPIRED".data
      | .jsonWebTokenError => .respond 401 "INVALID_TOKEN".data
      | .notBeforeError => .respond 401 "TOKEN_NOT_ACTIVE".data
      | .otherError => .respond 401 "TOKEN_VERIFICATION_FAILED".data
      | .ok p =>
        if !(jsTruthy p.id && jsTruthy p.username) then
          .respond 401 "INVALID_TOKEN_FORMAT".data
        else if jsTruthy p.iss && p.iss ≠ some expectedIssuer then
          .respond 401 "INVALID_ISSUER".data
        else if jsTruthy p.aud && p.aud ≠ some expectedAudience then
          .respond 401 "INVALID_AUDIENCE".data
        else
          .next p (decide (p.exp - now < 3600))

/-- Spec-side extraction ("checked in that priority order, first non-empty
wins"): the first non-empty value in a list of carrier values. -/
def firstNonEmptyToken : List (Option Str) → Option Str
  | [] => none
  | o :: rest =>
    match o with
    | none => firstNonEmptyToken rest
    | some s => if s.isEmpty then firstNonEmptyToken rest else some s

/-! ### `createRateLimit` (src/server/middleware/authMiddleware.js,
lines 216–252)

A limiter instance closes over a map from identifier to the ordered list of
recorded request instants (ms), oldest first; a missing identifier reads as
the empty list (`requests.get(identifier) || []`). -/

/-- The per-identifier request map of a rate limiter instance. -/
abbrev RLMap := Str → List Int

/-- Map update `requests.set(identifier, l)`. -/
def rlSet (m : RLMap) (ident : Str) (l : List Int) : RLMap :=
  fun k => if k = ident then l else m k

/-- The decision of one rate-limit check: proceed (`next()`), or a 429
RATE_LIMIT_EXCEEDED response carrying `retryAfter` in seconds. -/
inductive RLOutcome where
  | allowed
  | rateLimited (retryAfterSeconds : Int)
deriving DecidableEq

/-- Ceiling division `Math.ceil(x / 1000)` for the positive differences
`userRequests[0] - windowStart` produced on the deny path (every retained
instant is strictly greater than `windowStart`). -/
def jsCeilDiv1000 (x : Int) : Int := (x + 999) / 1000

/-- One checkpoint of the middleware returned by `createRateLimit`: prune
the identifier's records to instants strictly inside the window, then deny
with `retryAfter` computed from the oldest retained instant when
`maxRequests` records remain, else append `now` and allow.  On the deny
path `userRequests[0]` is read from a non-empty list whenever
`maxRequests ≥ 1`; `headD 0` models that read. -/
def rateLimitCheck (windowMs : Int) (maxRequests : Nat) (m : RLMap)
    (ident : Str) (now : Int) : RLOutcome × RLMap :=
  let windowStart := now - windowMs
  let validRequests := (m ident).filter (fun t => decide (windowStart < t))
  if maxRequests ≤ validRequests.length then
    (RLOutcome.rateLimited (jsCeilDiv1000 (validRequests.headD 0 - windowStart)),
     rlSet m ident validRequests)
  else
    (RLOutcome.allowed, rlSet m ident (validRequests ++ [now]))

/-! ### Token revocation blacklist and the blacklist-checking `verifyToken`
(src/unnamed/part_002), and `POST /logout`
(src/server/routes/auth.js, lines 375–392)

`jwt.decode(token)` (no signature check) is modelled as a function
returning `none` when decoding fails and otherwise the optional `exp`
claim (seconds). -/

/-- Function `addToBlacklist` from `src/unnamed/part_002`: the token is added only
when it decodes, carries a truthy `exp` claim and is not already expired
(`decoded.exp > currentTime`); a `setTimeout` removal at the token's own
expiry is scheduled at the same moment. -/
def addToBlacklist (decode : Str → Option (Option Int)) (now : Int)
    (bl : List Str) (token : Str) : List Str :=
  match decode token with
  | none => bl
  | some oexp =>
    match oexp with
    | none => bl
    | some e => if e ≠ 0 ∧ now < e then token :: bl else bl

/-- The accumulated effect, at instant `now'`, of the `setTimeout` removals
scheduled by `addToBlacklist`: an entry whose decoded expiry is at most
`now'` has been deleted (its timer, set for the expiry instant, has fired).
Entries enter the set only with a decodable non-zero `exp`, so the
catch-all branch never applies to entries added by `addToBlacklist`. -/
def sweepBlacklist (decode : Str → Option (Option Int)) (now' : Int)
    (bl : List Str) : List Str :=
  bl.filter (fun t =>
    match decode t with
    | some (some e) => decide (now' < e)
    | _ => true)

/-- Function `isTokenBlacklisted` from `src/unnamed/part_002`: set membership. -/
def isTokenBlacklisted (bl : List Str) (token : Str) : Bool :=
  decide (token ∈ bl)

/-- The result of the blacklist-checking middleware of
`src/unnamed/part_002`: `next()` with the decoded user, or a JSON error
response. -/
inductive BLOutcome where
  | next (p : JwtPayload)
  | respond (status : Nat) (code : Str)
deriving DecidableEq

/-- Function `verifyToken` from `src/unnamed/part_002`: bearer header only
(NO_TOKEN otherwise), then the blacklist check (TOKEN_REVOKED), then
`jwt.verify` with its catch block (TOKEN_EXPIRED for `TokenExpiredError`,
TOKEN_VERIFICATION_FAILED for anything else), then the required-claims
check (INVALID_TOKEN_FORMAT). -/
def verifyTokenBlacklist (bl : List Str) (jv : Str → JwtOutcome)
    (authHeader : Option Str) : BLOutcome :=
  match authHeader with
  | none => .respond 401 "NO_TOKEN".data
  | some h =>
    if !("Bearer ".data.isPrefixOf h) then .respond 401 "NO_TOKEN".data
    else
      let token := h.drop 7
      if isTokenBlacklisted bl token then .respond 401 "TOKEN_REVOKED".data
      else
        match jv token with
        | .ok p =>
          if !(jsTruthy p.id && jsTruthy p.username) then
            .respond 401 "INVALID_TOKEN_FORMAT".data
          else .next p
        | .tokenExpiredError => .respond 401 "TOKEN_EXPIRED".data
        | .jsonWebTokenError => .respond 401 "TOKEN_VERIFICATION_FAILED".data
        | .notBeforeError => .respond 401 "TOKEN_VERIFICATION_FAILED".data
        | .otherError => .respond 401 "TOKEN_VERIFICATION_FAILED".data

/-- Route `POST /logout` from `src/server/routes/auth.js` (lines 375–392): the
handler logs the username and responds 200; it performs no revocation —
its module imports no blacklist API — so the blacklist state is returned
unchanged. -/
def logoutRoute (bl : List Str) (_token : Str) : List Str × Nat := (bl, 200)

/-! ### Stream-key generation
(src/server/routes/stream.js: the `POST /regenerate-key` loop at lines
307–350 and the identical helper `generateUniqueStreamKey` at lines
605–624)

A candidate is `username + "_" + Date.now().toString(36) + "_" + 16
lowercase-hex characters`.  The clock reading and random part of attempt
`k` are supplied by `gen k`; the store collision check
(`User.findOne({streamKey})` finding an existing key) by `store`. -/

/-- One base-36 digit as produced by `Number.toString(36)`: `0`–`9` then
`a`–`z`. -/
def base36Digit (n : Nat) : Char :=
  if n < 10 then Char.ofNat (48 + n) else Char.ofNat (87 + n)

/-- Fuelled digit expansion, most significant digit first; `[]` for 0.
The fuel only bounds the recursion depth and any `fuel > n` computes the
true expansion. -/
def natToBase36Aux : Nat → Nat → List Char
  | 0, _ => []
  | fuel + 1, n =>
    if n = 0 then []
    else natToBase36Aux fuel (n / 36) ++ [base36Digit (n % 36)]

/-- Rendering `n.toString(36)` for a natural number. -/
def natToBase36 (n : Nat) : Str :=
  if n = 0 then ['0'] else natToBase36Aux (n + 1) n

/-- The candidate of attempt `k`:
`username + "_" + base36(now) + "_" + 16 random hex chars`
(`gen k = (clock reading, random part)` for attempt `k`). -/
def streamKeyCandidate (username : Str) (gen : Nat → Nat × Str) (k : Nat) : Str :=
  username ++ ['_'] ++ natToBase36 (gen k).1 ++ ['_'] ++ (gen k).2

/-- The `while (!isUnique && attempts < maxAttempts)` loop: `k` attempts
already made, `fuel` attempts remaining (initially 5).  `store c = true`
means `User.findOne({streamKey: c})` found an existing user, i.e. a
collision. -/
def keyGenLoop (store : Str → Bool) (username : Str) (gen : Nat → Nat × Str) :
    Nat → Nat → Option Str
  | _, 0 => none
  | k, fuel + 1 =>
    if store (streamKeyCandidate username gen k) then
      keyGenLoop store username gen (k + 1) fuel
    else some (streamKeyCandidate username gen k)

/-- Function `generateUniqueStreamKey` from `src/server/routes/stream.js` (the same
loop is inlined in `POST /regenerate-key`): up to 5 attempts, `none`
(KEY_GENERATION_FAILED) when all collide. -/
def generateUniqueStreamKey (store : Str → Bool) (username : Str)
    (gen : Nat → Nat × Str) : Option Str :=
  keyGenLoop store username gen 0 5

/-! ### User records and `POST /regenerate-key`
(src/server/routes/stream.js, lines 294–389) -/

/-- The user-record fields read or written by the stream routes. -/
structure UserRec where
  id : Str
  username : Str
  streamKey : Str
  isActive : Bool
  lastStreamTime : Option Int
  lastStreamEndTime : Option Int
deriving DecidableEq

/-- Outcome of `POST /regenerate-key`: 404 USER_NOT_FOUND, 409
STREAMING_IN_PROGRESS, 500 KEY_GENERATION_FAILED, or 200 with the rotated
key (the update sets `streamKey` and `streamKeyUpdatedAt`). -/
inductive RegenOutcome where
  | notFound
  | streamingInProgress
  | keyGenFailed
  | rotated (newKey : Str)
deriving DecidableEq

/-- The `POST /regenerate-key` handler from `src/server/routes/stream.js`:
look the user up by the authenticated id, refuse with
STREAMING_IN_PROGRESS while `isUserStreaming` holds, then run the
5-attempt generation loop and either fail with KEY_GENERATION_FAILED or
store the new key. -/
def regenerateKeyHandler (now : Int) (findById : Str → Option UserRec)
    (store : Str → Bool) (gen : Nat → Nat × Str) (uid : Str) : RegenOutcome :=
  match findById uid with
  | none => .notFound
  | some u =>
    if isUserStreaming now (some ⟨u.lastStreamTime⟩) then .streamingInProgress
    else
      match generateUniqueStreamKey store u.username gen with
      | none => .keyGenFailed
      | some k => .rotated k

/-- The user's `streamKey` after the handler: replaced only on a
successful rotation. -/
def regenAppliedKey (u : UserRec) : RegenOutcome → Str
  | .rotated k => k
  | _ => u.streamKey

/-! ### `POST /end`
(src/server/routes/stream.js, lines 196–242, with the `handleStreamEnd`
middleware of src/server/middleware/streamMiddleware.js, lines 234–269) -/

/-- The body fields from which the stream key is read:
`req.body.name || req.body.key || req.body.stream_key ||
req.body.streamKey`. -/
structure EndBody where
  name : Option Str
  key : Option Str
  stream_key : Option Str
  streamKey : Option Str

/-- JS `a || b` on possibly-absent strings. -/
def jsOrStr (a b : Option Str) : Option Str :=
  if jsTruthy a then a else b

/-- The claimed key extracted by `handleStreamEnd`. -/
def extractEndKey (b : EndBody) : Option Str :=
  jsOrStr b.name (jsOrStr b.key (jsOrStr b.stream_key b.streamKey))

/-- The state changes performed by `POST /end`:
`lastStreamEndTime` is set for the named user, and
`streamStatusCache.set(username, {isStreaming: false, timestamp: now})` is
written. -/
structure EndEffect where
  endedUsername : Option Str
  cacheEntry : Option (Str × Bool × Int)
deriving DecidableEq

/-- Route `POST /end` composed with `handleStreamEnd`: 400 MISSING_STREAM_KEY
when every carrier field is falsy; otherwise look the key up, record the
end for a matching user, and respond 200 whether or not the key matched
any user. -/
def endRoute (now : Int) (findByKey : Str → Option UserRec) (body : EndBody) :
    Nat × EndEffect :=
  match extractEndKey body with
  | none => (400, ⟨none, none⟩)
  | some sk =>
    if sk.isEmpty then (400, ⟨none, none⟩)
    else
      match findByKey sk with
      | some u => (200, ⟨some u.username, some (u.username, false, now)⟩)
      | none => (200, ⟨none, none⟩)

/-! ### `formatUserStreamData` and `GET /public/:username`
(src/server/middleware/streamMiddleware.js, lines 274–317, and
src/server/routes/stream.js, lines 394–459) -/

/-- A status response body.  Fields that the source adds only
conditionally are `Option`-wrapped, with `none` meaning the field is
absent from the JSON object. -/
structure StreamDataOut where
  username : Str
  isStreaming : Bool
  status : Str
  watchUrl : Str
  lastStreamTime : Option Int
  streamKey : Option Str
  streamUrl : Option Str
  lastStreamEndTime : Option (Option Int)
deriving DecidableEq

/-- Function `generateStreamUrls` with the default server address and ports:
`(rtmp publish URL, HLS watch URL)`. -/
def generateStreamUrls (username : Str) : Str × Str :=
  ("rtmp://3.107.21.209:1935/live".data,
   "http://3.107.21.209:8000/live/".data ++ username ++ "/index.m3u8".data)

/-- Function `formatUserStreamData` from
`src/server/middleware/streamMiddleware.js`: the base object carries
`username`, `isStreaming`, `status`, `watchUrl` and `lastStreamTime`
(nulled when offline); only when `includeStreamKey` is set are
`streamKey`, `streamUrl` and `lastStreamEndTime` added. -/
def formatUserStreamData (now : Int) (u : UserRec) (includeStreamKey : Bool) :
    StreamDataOut :=
  let isStreaming := isUserStreaming now (some ⟨u.lastStreamTime⟩)
  let urls := generateStreamUrls u.username
  let data : StreamDataOut :=
    { username := u.username
      isStreaming := isStreaming
      status := if isStreaming then "online".data else "offline".data
      watchUrl := urls.2
      lastStreamTime := if isStreaming then u.lastStreamTime else none
      streamKey := none
      streamUrl := none
      lastStreamEndTime := none }
  if includeStreamKey then
    { data with
        streamKey := some u.streamKey
        streamUrl := some urls.1
        lastStreamEndTime := some u.lastStreamEndTime }
  else data

/-- The cache-miss tail of `GET /public/:username`: user lookup (the
case-insensitive regex lookup is abstracted as `findByUsername`), 404 for
a missing or disabled user, else `formatUserStreamData(user, false)`. -/
def publicStatusMiss (now : Int) (findByUsername : Str → Option UserRec)
    (username : Str) : Option StreamDataOut :=
  match findByUsername username with
  | none => none
  | some u =>
    if !u.isActive then none
    else some (formatUserStreamData now u false)

/-- Route `GET /public/:username` from `src/server/routes/stream.js`: a fresh
`streamStatusCache` entry (younger than `CACHE_TTL = 60000` ms) is served
directly in the same five-field shape; otherwise the store is consulted.
`none` models the 404 response. -/
def publicStatusRoute (now : Int) (cache : Str → Option (Bool × Int))
    (findByUsername : Str → Option UserRec) (username : Str) :
    Option StreamDataOut :=
  match cache username with
  | some entry =>
    if now - entry.2 < 60000 then
      some { username := username
             isStreaming := entry.1
             status := if entry.1 then "online".data else "offline".data
             watchUrl := (generateStreamUrls username).2
             lastStreamTime := if entry.1 then some now else none
             streamKey := none
             streamUrl := none
             lastStreamEndTime := none }
    else publicStatusMiss now findByUsername username
  | none => publicStatusMiss now findByUsername username

/-! ## Verified properties of the embedded code -/

/-- A key character is never a sensitive character. -/
theorem isKeyChar_not_sensitive {c : Char} (h : isKeyChar c = true) :
    isSensitiveChar c = false := by
  simp only [isKeyChar, Bool.or_eq_true, Bool.and_eq_true, decide_eq_true_eq] at h
  simp only [isSensitiveChar, Bool.or_eq_false_iff, decide_eq_false_iff_not]
  omega

/-- Every username character is a key character. -/
theorem isUsernameChar_isKeyChar {c : Char} (h : isUsernameChar c = true) :
    isKeyChar c = true := by
  simp only [isUsernameChar, Bool.or_eq_true, Bool.and_eq_true, decide_eq_true_eq] at h
  simp only [isKeyChar, Bool.or_eq_true, Bool.and_eq_true, decide_eq_true_eq]
  omega

/-- Every lowercase hex character is a key character. -/
theorem isLowerHexChar_isKeyChar {c : Char} (h : isLowerHexChar c = true) :
    isKeyChar c = true := by
  simp only [isLowerHexChar, Bool.or_eq_true, Bool.and_eq_true, decide_eq_true_eq] at h
  simp only [isKeyChar, Bool.or_eq_true, Bool.and_eq_true, decide_eq_true_eq]
  omega

/-- C2: `validateStreamKey` accepts exactly the strings of length 10–100
whose characters all lie in `[A-Za-z0-9_-]` and which contain no character
from `< > { } [ ] \`; every other input (non-strings included) is
rejected. -/
theorem validateStreamKey_accepts_iff (v : JsValue) :
    validateStreamKey v = true ↔
      ∃ s, v = JsValue.str s ∧ 10 ≤ s.length ∧ s.length ≤ 100 ∧
        (∀ c ∈ s, isKeyChar c = true) ∧ (∀ c ∈ s, isSensitiveChar c = false) := by
  cases v with
  | nonStringValue => simp [validateStreamKey]
  | str s =>
    constructor
    · intro h
      simp only [validateStreamKey] at h
      split_ifs at h with h1 h2 h3 h4
      refine ⟨s, rfl, ?_, ?_, ?_, ?_⟩
      · simp only [Bool.or_eq_true, decide_eq_true_eq, not_or] at h2
        omega
      · simp only [Bool.or_eq_true, decide_eq_true_eq, not_or] at h2
        omega
      · simp only [Bool.not_eq_true', Bool.not_eq_false] at h3
        exact fun c hc => List.all_eq_true.1 h3 c hc
      · intro c hc
        simp only [List.any_eq_true, not_exists, not_and] at h4
        exact Bool.not_eq_true _ ▸ (by
          by_contra hcon
          exact h4 c hc (by revert hcon; cases isSensitiveChar c <;> simp))
    · rintro ⟨t, ht, h10, h100, hkey, hsens⟩
      obtain rfl : s = t := by injection ht
      have hne : s.isEmpty = false := by
        cases s with
        | nil => simp at h10
        | cons a l => rfl
      have hall : s.all isKeyChar = true := List.all_eq_true.2 hkey
      have hany : s.any isSensitiveChar = false := by
        rw [← Bool.not_eq_true, List.any_eq_true]
        rintro ⟨c, hc, hcs⟩
        rw [hsens c hc] at hcs
        exact Bool.false_ne_true hcs
      simp [validateStreamKey, hne, hall, hany]
      omega

/-- C4: `isUserStreaming` is true exactly when the record exists, its
`lastStreamTime` is non-null, that instant is not in the future, and fewer
than 60000 ms (60 s) have elapsed since it; in particular a future
`lastStreamTime` or one older than the 60-second timeout yields false. -/
theorem isUserStreaming_iff (now : Int) (user : Option StreamView) :
    isUserStreaming now user = true ↔
      ∃ u t, user = some u ∧ u.lastStreamTime = some t ∧
        t ≤ now ∧ now - t < 60000 := by
  cases user with
  | none => simp [isUserStreaming]
  | some u =>
    cases hlt : u.lastStreamTime with
    | none => simp [isUserStreaming, hlt]
    | some t =>
      simp only [isUserStreaming, hlt]
      constructor
      · intro h
        split_ifs at h with hfut
        refine ⟨u, t, rfl, hlt, ?_, ?_⟩
        · omega
        · exact of_decide_eq_true h
      · rintro ⟨u', t', hu, ht, hle, hlt60⟩
        obtain rfl : u = u' := by injection hu
        rw [hlt] at ht
        obtain rfl : t = t' := by injection ht
        rw [if_neg (by omega)]
        exact decide_eq_true hlt60

/-- C8: token extraction inspects bearer header, query `token`, body
`token`, cookie `token` in that order and yields the first non-empty value;
when every carrier is absent or empty, `verifyToken` responds 401 NO_TOKEN
for every signing secret state and every `jwt.verify` behaviour, i.e.
without attempting signature verification. -/
theorem tokenExtraction_priority (req : AuthRequest) :
    extractToken req =
      firstNonEmptyToken [bearerToken req.authorization, req.queryToken,
        req.bodyToken, req.cookieToken] ∧
    (extractToken req = none →
      ∀ (now : Int) (secretPresent : Bool) (jv jv' : Str → JwtOutcome),
        verifyToken now secretPresent jv req =
          MwOutcome.respond 401 "NO_TOKEN".data ∧
        verifyToken now secretPresent jv req =
          verifyToken now secretPresent jv' req) := by
  constructor
  · show (match extractTokenRaw req with
      | none => none
      | some s => if s.isEmpty then none else some s) = _
    unfold extractTokenRaw
    generalize bearerToken req.authorization = b
    generalize req.queryToken = q
    generalize req.bodyToken = c
    generalize req.cookieToken = d
    rcases b with _ | sb <;> rcases q with _ | sq <;> rcases c with _ | sc <;>
      rcases d with _ | sd <;>
      simp only [jsOrToken, jsTruthy, firstNonEmptyToken, Bool.not_false,
        Bool.not_true, Bool.true_and, Bool.false_and, Bool.and_self] <;>
      split_ifs <;> simp_all [firstNonEmptyToken]
  · intro hnone now secretPresent jv jv'
    constructor <;> · unfold verifyToken; rw [hnone]

/-- Truthiness of an absent value is false. -/
theorem jsTruthyNone : jsTruthy none = false := rfl

/-- C10: when signature and expiry verify and the payload carries truthy
`id` and `username` but no `iss`/`aud` claim at all, `verifyToken` succeeds
(calls `next`); and an INVALID_ISSUER (resp. INVALID_AUDIENCE) response can
only arise from a decoded payload whose `iss` (resp. `aud`) claim is
present, non-empty and different from the expected tag — never from an
absent claim. -/
theorem issuerAudience_only_when_present :
    (∀ (now : Int) (jv : Str → JwtOutcome) (req : AuthRequest) (tok : Str)
        (p : JwtPayload),
      extractToken req = some tok →
      jv tok = JwtOutcome.ok p →
      jsTruthy p.id = true →
      jsTruthy p.username = true →
      p.iss = none →
      p.aud = none →
      verifyToken now true jv req =
        MwOutcome.next p (decide (p.exp - now < 3600))) ∧
    (∀ (now : Int) (secretPresent : Bool) (jv : Str → JwtOutcome)
        (req : AuthRequest),
      verifyToken now secretPresent jv req =
        MwOutcome.respond 401 "INVALID_ISSUER".data →
      ∃ tok p s, extractToken req = some tok ∧ jv tok = JwtOutcome.ok p ∧
        p.iss = some s ∧ s ≠ [] ∧ s ≠ expectedIssuer) ∧
    (∀ (now : Int) (secretPresent : Bool) (jv : Str → JwtOutcome)
        (req : AuthRequest),
      verifyToken now secretPresent jv req =
        MwOutcome.respond 401 "INVALID_AUDIENCE".data →
      ∃ tok p s, extractToken req = some tok ∧ jv tok = JwtOutcome.ok p ∧
        p.aud = some s ∧ s ≠ [] ∧ s ≠ expectedAudience) := by
  refine ⟨?_, ?_, ?_⟩
  · intro now jv req tok p hext hjv hid huser hiss haud
    unfold verifyToken
    rw [hext]
    simp [hjv, hid, huser, hiss, haud, jsTruthyNone]
  · intro now secretPresent jv req h
    unfold verifyToken at h
    cases hext : extractToken req with
    | none => rw [hext] at h; simp at h
    | some tok =>
      rw [hext] at h
      cases secretPresent with
      | false => simp at h
      | true =>
        simp only [Bool.not_true, Bool.false_eq_true, if_false] at h
        cases hjv : jv tok with
        | ok p =>
          rw [hjv] at h
          simp only [] at h
          split_ifs at h with h1 h2 h3
          · simp at h
          · simp only [Bool.and_eq_true, decide_eq_true_eq] at h2
            obtain ⟨h2a, h2b⟩ := h2
            cases hiss : p.iss with
            | none => rw [hiss] at h2a; simp [jsTruthy] at h2a
            | some s =>
              refine ⟨tok, p, s, rfl, hjv, hiss, ?_, ?_⟩
              · rw [hiss] at h2a
                simpa [jsTruthy] using h2a
              · intro hcon
                rw [hiss] at h2b
                exact h2b (by rw [hcon])
          · simp at h
        | tokenExpiredError => rw [hjv] at h; simp at h
        | jsonWebTokenError => rw [hjv] at h; simp at h
        | notBeforeError => rw [hjv] at h; simp at h
        | otherError => rw [hjv] at h; simp at h
  · intro now secretPresent jv req h
    unfold verifyToken at h
    cases hext : extractToken req with
    | none => rw [hext] at h; simp at h
    | some tok =>
      rw [hext] at h
      cases secretPresent with
      | false => simp at h
      | true =>
        simp only [Bool.not_true, Bool.false_eq_true, if_false] at h
        cases hjv : jv tok with
        | ok p =>
          rw [hjv] at h
          simp only [] at h
          split_ifs at h with h1 h2 h3
          · simp at h
          · simp at h
          · simp only [Bool.and_eq_true, decide_eq_true_eq] at h3
            obtain ⟨h3a, h3b⟩ := h3
            cases haud : p.aud with
            | none => rw [haud] at h3a; simp [jsTruthy] at h3a
            | some s =>
              refine ⟨tok, p, s, rfl, hjv, haud, ?_, ?_⟩
              · rw [haud] at h3a
                simpa [jsTruthy] using h3a
              · intro hcon
                rw [haud] at h3b
                exact h3b (by rw [hcon])
        | tokenExpiredError => rw [hjv] at h; simp at h
        | jsonWebTokenError => rw [hjv] at h; simp at h
        | notBeforeError => rw [hjv] at h; simp at h
        | otherError => rw [hjv] at h; simp at h

/-- Witness for C8 at a concrete request with every carrier absent: the
response is 401 NO_TOKEN and does not depend on the `jwt.verify`
behaviour. -/
theorem tokenExtraction_priority_witness :
    verifyToken 0 true (fun _ => JwtOutcome.otherError)
        ⟨none, none, none, none⟩ =
      MwOutcome.respond 401 "NO_TOKEN".data ∧
    verifyToken 0 true (fun _ => JwtOutcome.otherError)
        ⟨none, none, none, none⟩ =
      verifyToken 0 true
        (fun _ => JwtOutcome.ok ⟨some "u1".data, some "alice".data, none,
          none, none, 0, 9999⟩)
        ⟨none, none, none, none⟩ :=
  (tokenExtraction_priority ⟨none, none, none, none⟩).2 rfl 0 true _ _

/-- Witness for C10 at a concrete request and `jwt.verify` outcome: a
payload with `id` and `username` but no `iss`/`aud` claims passes
verification. -/
theorem issuerAudience_only_when_present_witness :
    verifyToken 0 true
        (fun t => if t = "tok".data then
            JwtOutcome.ok ⟨some "u1".data, some "alice".data, none, none,
              none, 0, 9999⟩
          else JwtOutcome.otherError)
        ⟨some "Bearer tok".data, none, none, none⟩ =
      MwOutcome.next ⟨some "u1".data, some "alice".data, none, none, none,
        0, 9999⟩ false := by
  have h := issuerAudience_only_when_present.1 0
    (fun t => if t = "tok".data then
        JwtOutcome.ok ⟨some "u1".data, some "alice".data, none, none,
          none, 0, 9999⟩
      else JwtOutcome.otherError)
    ⟨some "Bearer tok".data, none, none, none⟩ "tok".data
    ⟨some "u1".data, some "alice".data, none, none, none, 0, 9999⟩
    (by decide) (by decide) (by decide) (by decide) rfl rfl
  simpa using h

/-- C3: every checkpoint first drops the identifier's instants outside the
trailing window, allows (appending `now`) exactly when fewer than
`maxRequests` remain, and otherwise denies with `retryAfter` derived from
the oldest retained instant while leaving the pruned list in place; with
`maxRequests = 3, windowMs = 1000`, three calls inside the window are
allowed, the fourth is denied, and a call after the window has elapsed is
allowed again. -/
theorem rateLimit_spec :
    (∀ (windowMs : Int) (maxRequests : Nat) (m : RLMap) (ident : Str)
        (now : Int) (valid : List Int),
      valid = (m ident).filter (fun t => decide (now - windowMs < t)) →
      (((rateLimitCheck windowMs maxRequests m ident now).1 =
          RLOutcome.allowed ↔ valid.length < maxRequests) ∧
       (valid.length < maxRequests →
          (rateLimitCheck windowMs maxRequests m ident now).2 ident =
            valid ++ [now]) ∧
       (maxRequests ≤ valid.length →
          (rateLimitCheck windowMs maxRequests m ident now).1 =
            RLOutcome.rateLimited
              (jsCeilDiv1000 (valid.headD 0 - (now - windowMs))) ∧
          (rateLimitCheck windowMs maxRequests m ident now).2 ident =
            valid))) ∧
    ((rateLimitCheck 1000 3 (fun _ => []) "client".data 0).1 =
        RLOutcome.allowed ∧
     (rateLimitCheck 1000 3
        (rateLimitCheck 1000 3 (fun _ => []) "client".data 0).2
        "client".data 100).1 = RLOutcome.allowed ∧
     (rateLimitCheck 1000 3
        (rateLimitCheck 1000 3
          (rateLimitCheck 1000 3 (fun _ => []) "client".data 0).2
          "client".data 100).2
        "client".data 200).1 = RLOutcome.allowed ∧
     (rateLimitCheck 1000 3
        (rateLimitCheck 1000 3
          (rateLimitCheck 1000 3
            (rateLimitCheck 1000 3 (fun _ => []) "client".data 0).2
            "client".data 100).2
          "client".data 200).2
        "client".data 300).1 = RLOutcome.rateLimited 1 ∧
     (rateLimitCheck 1000 3
        (rateLimitCheck 1000 3
          (rateLimitCheck 1000 3
            (rateLimitCheck 1000 3
              (rateLimitCheck 1000 3 (fun _ => []) "client".data 0).2
              "client".data 100).2
            "client".data 200).2
          "client".data 300).2
        "client".data 1500).1 = RLOutcome.allowed) := by
  constructor
  · intro windowMs maxRequests m ident now valid hvalid
    by_cases hle : maxRequests ≤ valid.length
    · have hck : rateLimitCheck windowMs maxRequests m ident now =
          (RLOutcome.rateLimited
            (jsCeilDiv1000 (valid.headD 0 - (now - windowMs))),
           rlSet m ident valid) := by
        unfold rateLimitCheck
        dsimp only
        rw [← hvalid, if_pos hle]
      refine ⟨?_, ?_, ?_⟩
      · rw [hck]
        simp
        omega
      · intro hlt; omega
      · intro _
        rw [hck]
        exact ⟨rfl, by simp [rlSet]⟩
    · have hck : rateLimitCheck windowMs maxRequests m ident now =
          (RLOutcome.allowed, rlSet m ident (valid ++ [now])) := by
        unfold rateLimitCheck
        dsimp only
        rw [← hvalid, if_neg hle]
      refine ⟨?_, ?_, ?_⟩
      · rw [hck]
        simp
        omega
      · intro _
        rw [hck]
        simp [rlSet]
      · intro hge; omega
  · refine ⟨by decide, by decide, by decide, by decide, by decide⟩

/-- Witness for C3 at a concrete pruned list of three retained instants:
the check denies with `retryAfter = 1` and keeps the pruned list. -/
theorem rateLimit_spec_witness :
    (3 ≤ ([(0 : Int), 100, 200]).length) ∧
    (rateLimitCheck 1000 3 (fun _ => [(0 : Int), 100, 200])
        "client".data 300).1 = RLOutcome.rateLimited 1 ∧
    (rateLimitCheck 1000 3 (fun _ => [(0 : Int), 100, 200])
        "client".data 300).2 "client".data = [(0 : Int), 100, 200] := by
  have h := (rateLimit_spec.1 1000 3 (fun _ => [(0 : Int), 100, 200])
    "client".data 300 [(0 : Int), 100, 200] (by decide)).2.2 (by decide)
  refine ⟨by decide, ?_, h.2⟩
  rw [h.1]
  decide

/-- C1 counterexample: a concrete unexpired token presented to
`POST /logout` is afterwards still accepted by token verification — even
by the blacklist-checking variant — rather than rejected as revoked,
because logout adds nothing to the revocation set. -/
theorem logout_not_revoked_counterexample :
    (logoutRoute [] "tok".data).2 = 200 ∧
    verifyTokenBlacklist (logoutRoute [] "tok".data).1
        (fun t => if t = "tok".data then
            JwtOutcome.ok ⟨some "u1".data, some "alice".data,
              some "alice_k1_0123456789abcdef".data, none, none, 1000, 2000⟩
          else JwtOutcome.otherError)
        (some "Bearer tok".data) =
      BLOutcome.next ⟨some "u1".data, some "alice".data,
        some "alice_k1_0123456789abcdef".data, none, none, 1000, 2000⟩ ∧
    verifyTokenBlacklist (logoutRoute [] "tok".data).1
        (fun t => if t = "tok".data then
            JwtOutcome.ok ⟨some "u1".data, some "alice".data,
              some "alice_k1_0123456789abcdef".data, none, none, 1000, 2000⟩
          else JwtOutcome.otherError)
        (some "Bearer tok".data) ≠
      BLOutcome.respond 401 "TOKEN_REVOKED".data := by
  refine ⟨rfl, by decide, by decide⟩

/-- A list is a prefix of itself followed by anything, in `isPrefixOf`
form. -/
theorem isPrefixOf_append (l t : List Char) : (l.isPrefixOf (l ++ t)) = true := by
  induction l with
  | nil => simp [List.isPrefixOf]
  | cons a l ih => simp [List.isPrefixOf, ih]

/-- C1 (amended): a token passed to the revocation primitive
`addToBlacklist` while unexpired is, at any later verification instant
before its expiry, rejected as TOKEN_REVOKED (HTTP 401) by the
blacklist-checking `verifyToken`, whatever `jwt.verify` would say. -/
theorem revoked_token_rejected
    (decode : Str → Option (Option Int)) (now : Int) (bl : List Str)
    (token : Str) (e : Int)
    (hdec : decode token = some (some e)) (hne : e ≠ 0) (hnow : now < e)
    (now' : Int) (jv : Str → JwtOutcome) (hnow' : now' < e) :
    verifyTokenBlacklist
        (sweepBlacklist decode now' (addToBlacklist decode now bl token))
        jv (some ("Bearer ".data ++ token)) =
      BLOutcome.respond 401 "TOKEN_REVOKED".data := by
  have hadd : addToBlacklist decode now bl token = token :: bl := by
    unfold addToBlacklist
    rw [hdec]
    simp only [if_pos (And.intro hne hnow)]
  have hmem : token ∈ sweepBlacklist decode now' (addToBlacklist decode now bl token) := by
    rw [hadd]
    unfold sweepBlacklist
    refine List.mem_filter.2 ⟨List.mem_cons_self _ _, ?_⟩
    rw [hdec]
    exact decide_eq_true hnow'
  unfold verifyTokenBlacklist
  simp only []
  have hpre : ("Bearer ".data.isPrefixOf ("Bearer ".data ++ token)) = true :=
    isPrefixOf_append _ token
  have hdrop : ("Bearer ".data ++ token).drop 7 = token := by
    have h7 : ("Bearer ".data).length = 7 := rfl
    rw [← h7, List.drop_left]
  have hbl : isTokenBlacklisted
      (sweepBlacklist decode now' (addToBlacklist decode now bl token))
      token = true := by
    unfold isTokenBlacklisted
    exact decide_eq_true hmem
  simp [hpre, hdrop, hbl]

/-- Witness for the amended C1 at a concrete token, clock and blacklist:
revocation at time 1000 of a token expiring at 2000 makes verification at
time 1500 fail as TOKEN_REVOKED. -/
theorem revoked_token_rejected_witness :
    verifyTokenBlacklist
        (sweepBlacklist (fun t => if t = "tok".data then some (some 2000) else none)
          1500
          (addToBlacklist (fun t => if t = "tok".data then some (some 2000) else none)
            1000 [] "tok".data))
        (fun _ => JwtOutcome.otherError)
        (some ("Bearer ".data ++ "tok".data)) =
      BLOutcome.respond 401 "TOKEN_REVOKED".data :=
  revoked_token_rejected
    (fun t => if t = "tok".data then some (some 2000) else none)
    1000 [] "tok".data 2000 (by decide) (by decide) (by decide)
    1500 (fun _ => JwtOutcome.otherError) (by decide)

/-- Every base-36 digit is a stream-key character. -/
theorem base36Digit_isKeyChar : ∀ m : Nat, m < 36 → isKeyChar (base36Digit m) = true := by
  decide

/-- Digit-count bound: a number below `36 ^ k` has at most `k` base-36
digits. -/
theorem natToBase36Aux_length_le :
    ∀ (fuel n k : Nat), n < fuel → n < 36 ^ k →
      (natToBase36Aux fuel n).length ≤ k := by
  intro fuel
  induction fuel with
  | zero => intro n k hn _; omega
  | succ fuel ih =>
    intro n k hn hk
    unfold natToBase36Aux
    by_cases h0 : n = 0
    · simp [h0]
    · rw [if_neg h0]
      cases k with
      | zero =>
        exfalso
        simp only [pow_zero] at hk
        omega
      | succ k' =>
        have hdivlt : n / 36 < fuel := by
          have : n / 36 < n := Nat.div_lt_self (Nat.pos_of_ne_zero h0) (by omega)
          omega
        have hdivpow : n / 36 < 36 ^ k' := by
          rw [Nat.div_lt_iff_lt_mul (by omega : 0 < 36)]
          calc n < 36 ^ (k' + 1) := hk
            _ = 36 ^ k' * 36 := by rw [pow_succ]
        have := ih (n / 36) k' hdivlt hdivpow
        simp only [List.length_append, List.length_singleton]
        omega

/-- Every character of a base-36 expansion is a stream-key character. -/
theorem natToBase36Aux_isKeyChar :
    ∀ (fuel n : Nat), ∀ c ∈ natToBase36Aux fuel n, isKeyChar c = true := by
  intro fuel
  induction fuel with
  | zero => intro n c hc; simp [natToBase36Aux] at hc
  | succ fuel ih =>
    intro n c hc
    unfold natToBase36Aux at hc
    by_cases h0 : n = 0
    · simp [h0] at hc
    · rw [if_neg h0] at hc
      rcases List.mem_append.1 hc with h | h
      · exact ih _ c h
      · rw [List.mem_singleton.1 h]
        exact base36Digit_isKeyChar _ (Nat.mod_lt _ (by omega))

/-- Length bound for the rendered timestamp: below `36 ^ 62` (any clock
reading before year ≈ 10⁹⁰) it has at most 62 characters. -/
theorem natToBase36_length_le62 {n : Nat} (h : n < 36 ^ 62) :
    (natToBase36 n).length ≤ 62 := by
  unfold natToBase36
  by_cases h0 : n = 0
  · simp [h0]
  · rw [if_neg h0]
    exact natToBase36Aux_length_le (n + 1) n 62 (by omega) h

/-- Every character of a rendered timestamp is a stream-key character. -/
theorem natToBase36_isKeyChar {n : Nat} :
    ∀ c ∈ natToBase36 n, isKeyChar c = true := by
  intro c hc
  unfold natToBase36 at hc
  by_cases h0 : n = 0
  · rw [if_pos h0] at hc
    rw [List.mem_singleton.1 hc]
    decide
  · rw [if_neg h0] at hc
    exact natToBase36Aux_isKeyChar _ _ c hc

/-- The generation loop fails exactly when every remaining attempt
collides. -/
theorem keyGenLoop_eq_none_iff (store : Str → Bool) (username : Str)
    (gen : Nat → Nat × Str) :
    ∀ (fuel k : Nat), keyGenLoop store username gen k fuel = none ↔
      ∀ j < fuel, store (streamKeyCandidate username gen (k + j)) = true := by
  intro fuel
  induction fuel with
  | zero => intro k; simp [keyGenLoop]
  | succ fuel ih =>
    intro k
    unfold keyGenLoop
    by_cases hs : store (streamKeyCandidate username gen k) = true
    · rw [if_pos hs, ih (k + 1)]
      constructor
      · intro h j hj
        cases j with
        | zero => simpa using hs
        | succ j' =>
          have := h j' (by omega)
          rw [show k + 1 + j' = k + (j' + 1) by omega] at this
          exact this
      · intro h j hj
        have := h (j + 1) (by omega)
        rw [show k + (j + 1) = k + 1 + j by omega] at this
        exact this
    · rw [if_neg hs]
      constructor
      · intro h; exact absurd h (by simp)
      · intro h
        exact absurd (h 0 (by omega)) (by simpa using hs)

/-- A key returned by the generation loop is the candidate of the first
non-colliding remaining attempt. -/
theorem keyGenLoop_eq_some (store : Str → Bool) (username : Str)
    (gen : Nat → Nat × Str) :
    ∀ (fuel k : Nat) (key : Str),
      keyGenLoop store username gen k fuel = some key →
      ∃ j < fuel, key = streamKeyCandidate username gen (k + j) ∧
        store (streamKeyCandidate username gen (k + j)) = false := by
  intro fuel
  induction fuel with
  | zero => intro k key h; simp [keyGenLoop] at h
  | succ fuel ih =>
    intro k key h
    unfold keyGenLoop at h
    by_cases hs : store (streamKeyCandidate username gen k) = true
    · rw [if_pos hs] at h
      obtain ⟨j, hj, hkey, hstore⟩ := ih (k + 1) key h
      refine ⟨j + 1, by omega, ?_, ?_⟩
      · rw [show k + (j + 1) = k + 1 + j by omega]; exact hkey
      · rw [show k + (j + 1) = k + 1 + j by omega]; exact hstore
    · rw [if_neg hs] at h
      refine ⟨0, by omega, ?_, ?_⟩
      · simpa using (Option.some.injEq _ _ ▸ h).symm
      · simpa using hs

/-- Sufficient shape conditions for `validateStreamKey`. -/
theorem validateStreamKey_of_shape {s : Str} (h10 : 10 ≤ s.length)
    (h100 : s.length ≤ 100) (hkey : ∀ c ∈ s, isKeyChar c = true) :
    validateStreamKey (JsValue.str s) = true := by
  have hne : s.isEmpty = false := by
    cases s with
    | nil => simp at h10
    | cons a l => rfl
  have hall : s.all isKeyChar = true := List.all_eq_true.2 hkey
  have hany : s.any isSensitiveChar = false := by
    rw [← Bool.not_eq_true, List.any_eq_true]
    rintro ⟨c, hc, hcs⟩
    rw [isKeyChar_not_sensitive (hkey c hc)] at hcs
    exact Bool.false_ne_true hcs
  simp [validateStreamKey, hne, hall, hany]
  omega

/-- C6: for a user whose record indicates a stream in progress, key
rotation fails with STREAMING_IN_PROGRESS and leaves the stream key
unchanged; a rotation succeeds only when the user is not currently
live. -/
theorem rotation_blocked_while_streaming
    (now : Int) (findById : Str → Option UserRec) (store : Str → Bool)
    (gen : Nat → Nat × Str) (uid : Str) (u : UserRec)
    (hfind : findById uid = some u) :
    (isUserStreaming now (some ⟨u.lastStreamTime⟩) = true →
      regenerateKeyHandler now findById store gen uid =
        RegenOutcome.streamingInProgress ∧
      regenAppliedKey u (regenerateKeyHandler now findById store gen uid) =
        u.streamKey) ∧
    (∀ k, regenerateKeyHandler now findById store gen uid =
        RegenOutcome.rotated k →
      isUserStreaming now (some ⟨u.lastStreamTime⟩) = false) := by
  constructor
  · intro hstreaming
    have hh : regenerateKeyHandler now findById store gen uid =
        RegenOutcome.streamingInProgress := by
      unfold regenerateKeyHandler
      rw [hfind]
      simp [hstreaming]
    exact ⟨hh, by rw [hh]; rfl⟩
  · intro k hrot
    by_contra hcon
    rw [Bool.not_eq_false] at hcon
    unfold regenerateKeyHandler at hrot
    rw [hfind] at hrot
    simp only [hcon, if_true] at hrot
    exact absurd hrot (by simp)

/-- Witness for C6 at a concrete live user: rotation is refused and the
key is unchanged. -/
theorem rotation_blocked_while_streaming_witness :
    isUserStreaming 1000
        (some ⟨some 500⟩) = true ∧
    regenerateKeyHandler 1000
        (fun i => if i = "u1".data then
            some ⟨"u1".data, "alice".data, "alice_k1_0123456789abcdef".data,
              true, some 500, none⟩
          else none)
        (fun _ => false) (fun _ => (0, "0123456789abcdef".data)) "u1".data =
      RegenOutcome.streamingInProgress ∧
    regenAppliedKey
        ⟨"u1".data, "alice".data, "alice_k1_0123456789abcdef".data,
          true, some 500, none⟩
        (regenerateKeyHandler 1000
          (fun i => if i = "u1".data then
              some ⟨"u1".data, "alice".data, "alice_k1_0123456789abcdef".data,
                true, some 500, none⟩
            else none)
          (fun _ => false) (fun _ => (0, "0123456789abcdef".data)) "u1".data) =
      "alice_k1_0123456789abcdef".data := by
  have h := (rotation_blocked_while_streaming 1000
    (fun i => if i = "u1".data then
        some ⟨"u1".data, "alice".data, "alice_k1_0123456789abcdef".data,
          true, some 500, none⟩
      else none)
    (fun _ => false) (fun _ => (0, "0123456789abcdef".data)) "u1".data
    ⟨"u1".data, "alice".data, "alice_k1_0123456789abcdef".data,
      true, some 500, none⟩ (by decide)).1 (by decide)
  exact ⟨by decide, h.1, h.2⟩

/-- C5: key generation builds each candidate as
`username + "_" + base36(now) + "_" + 16 hex chars`, checks it against the
store, retries at most 5 times, fails (KEY_GENERATION_FAILED, HTTP 500)
exactly when all 5 attempts collide, and — for a username accepted at
registration (length 3–20, characters `[A-Za-z0-9_]`) and well-formed
clock/random inputs — every returned key satisfies `validateStreamKey`. -/
theorem streamKeyGeneration_spec (store : Str → Bool) (username : Str)
    (gen : Nat → Nat × Str) :
    (generateUniqueStreamKey store username gen = none ↔
      ∀ k < 5, store (streamKeyCandidate username gen k) = true) ∧
    (∀ key, generateUniqueStreamKey store username gen = some key →
      ∃ k < 5, key = streamKeyCandidate username gen k ∧
        store (streamKeyCandidate username gen k) = false) ∧
    (3 ≤ username.length → username.length ≤ 20 →
      (∀ c ∈ username, isUsernameChar c = true) →
      (∀ k, (gen k).1 < 36 ^ 62 ∧ (gen k).2.length = 16 ∧
        ∀ c ∈ (gen k).2, isLowerHexChar c = true) →
      ∀ key, generateUniqueStreamKey store username gen = some key →
        validateStreamKey (JsValue.str key) = true) ∧
    (∀ (now : Int) (findById : Str → Option UserRec) (uid : Str),
      regenerateKeyHandler now findById store gen uid =
        RegenOutcome.keyGenFailed →
      ∃ u, findById uid = some u ∧
        ∀ k < 5, store (streamKeyCandidate u.username gen k) = true) := by
  have hshape : ∀ k,
      3 ≤ username.length → username.length ≤ 20 →
      (∀ c ∈ username, isUsernameChar c = true) →
      (gen k).1 < 36 ^ 62 → (gen k).2.length = 16 →
      (∀ c ∈ (gen k).2, isLowerHexChar c = true) →
      validateStreamKey (JsValue.str (streamKeyCandidate username gen k)) = true := by
    intro k h3 h20 huser hts hrnd hhex
    apply validateStreamKey_of_shape
    · unfold streamKeyCandidate
      simp only [List.length_append, List.length_singleton]
      omega
    · unfold streamKeyCandidate
      simp only [List.length_append, List.length_singleton]
      have := natToBase36_length_le62 hts
      omega
    · intro c hc
      unfold streamKeyCandidate at hc
      simp only [List.append_assoc, List.mem_append, List.mem_singleton] at hc
      rcases hc with hc | hc | hc | hc | hc
      · exact isUsernameChar_isKeyChar (huser c hc)
      · rw [hc]; decide
      · exact natToBase36_isKeyChar c hc
      · rw [hc]; decide
      · exact isLowerHexChar_isKeyChar (hhex c hc)
  refine ⟨?_, ?_, ?_, ?_⟩
  · unfold generateUniqueStreamKey
    rw [keyGenLoop_eq_none_iff]
    constructor
    · intro h k hk; simpa using h k hk
    · intro h k hk; simpa using h k hk
  · intro key h
    obtain ⟨j, hj, hkey, hst⟩ :=
      keyGenLoop_eq_some store username gen 5 0 key h
    exact ⟨j, hj, by simpa using hkey, by simpa using hst⟩
  · intro h3 h20 huser hgen key h
    obtain ⟨j, hj, hkey, hst⟩ :=
      keyGenLoop_eq_some store username gen 5 0 key h
    rw [show (0 + j) = j by omega] at hkey
    rw [hkey]
    exact hshape j h3 h20 huser (hgen j).1 (hgen j).2.1 (hgen j).2.2
  · intro now findById uid h
    unfold regenerateKeyHandler at h
    cases hfind : findById uid with
    | none => rw [hfind] at h; exact absurd h (by simp)
    | some u =>
      rw [hfind] at h
      simp only [] at h
      split_ifs at h with hstream
      refine ⟨u, rfl, ?_⟩
      cases hkg : generateUniqueStreamKey store u.username gen with
      | none =>
        intro k hk
        have hkk := (keyGenLoop_eq_none_iff store u.username gen 5 0).1 hkg k hk
        rw [show (0 + k) = k by omega] at hkk
        exact hkk
      | some key => rw [hkg] at h; exact absurd h (by simp)

/-- Witness for C5 at a concrete username, clock and randomness with a
collision-free store: the generated key is returned on the first attempt
and passes `validateStreamKey`. -/
theorem streamKeyGeneration_spec_witness :
    generateUniqueStreamKey (fun _ => false) "alice".data
        (fun _ => (0, "0123456789abcdef".data)) =
      some "alice_0_0123456789abcdef".data ∧
    validateStreamKey (JsValue.str "alice_0_0123456789abcdef".data) = true := by
  have h := (streamKeyGeneration_spec (fun _ => false) "alice".data
    (fun _ => (0, "0123456789abcdef".data))).2.2.1
    (by decide) (by decide) (by decide)
    (fun k => ⟨by norm_num, by decide, by decide⟩)
    "alice_0_0123456789abcdef".data (by decide)
  exact ⟨by decide, h⟩

/-- C7: for every claimed (non-empty) stream key the publish-end callback
responds 200: an unknown key is silently accepted with no state change,
and a second call with the same body — against any store state the first
call may have produced — also responds 200. -/
theorem endPublish_idempotent (now now₂ : Int)
    (findByKey findByKey₂ : Str → Option UserRec) (body : EndBody) (sk : Str)
    (hex : extractEndKey body = some sk) (hne : sk.isEmpty = false) :
    (endRoute now findByKey body).1 = 200 ∧
    (findByKey sk = none →
      (endRoute now findByKey body).2 = ⟨none, none⟩) ∧
    (endRoute now₂ findByKey₂ body).1 = 200 := by
  refine ⟨?_, ?_, ?_⟩
  · unfold endRoute
    rw [hex]
    simp only [hne, Bool.false_eq_true, if_false]
    cases findByKey sk <;> rfl
  · intro hnouser
    unfold endRoute
    rw [hex]
    simp only [hne, Bool.false_eq_true, if_false, hnouser]
  · unfold endRoute
    rw [hex]
    simp only [hne, Bool.false_eq_true, if_false]
    cases findByKey₂ sk <;> rfl

/-- Witness for C7 at a concrete unknown key: both calls return 200 and no
state is changed. -/
theorem endPublish_idempotent_witness :
    (endRoute 1000 (fun _ => none)
        ⟨some "ghost_key_123".data, none, none, none⟩).1 = 200 ∧
    (endRoute 1000 (fun _ => none)
        ⟨some "ghost_key_123".data, none, none, none⟩).2 =
      EndEffect.mk none none ∧
    (endRoute 2000 (fun _ => none)
        ⟨some "ghost_key_123".data, none, none, none⟩).1 = 200 := by
  have h := endPublish_idempotent 1000 2000 (fun _ => none) (fun _ => none)
    ⟨some "ghost_key_123".data, none, none, none⟩ "ghost_key_123".data
    rfl rfl
  exact ⟨h.1, h.2.1 rfl, h.2.2⟩

/-- C9: the public response (`includeStreamKey = false`, as served by
`GET /public/:username` on both the cached and the store path) never
contains `streamKey`, `streamUrl` or `lastStreamEndTime`, while the
authenticated own-status response (`includeStreamKey = true`) does carry
`streamKey`. -/
theorem publicStatus_no_secret_fields :
    (∀ (now : Int) (u : UserRec),
      (formatUserStreamData now u false).streamKey = none ∧
      (formatUserStreamData now u false).streamUrl = none ∧
      (formatUserStreamData now u false).lastStreamEndTime = none ∧
      (formatUserStreamData now u true).streamKey = some u.streamKey) ∧
    (∀ (now : Int) (cache : Str → Option (Bool × Int))
        (findByUsername : Str → Option UserRec) (username : Str)
        (d : StreamDataOut),
      publicStatusRoute now cache findByUsername username = some d →
      d.streamKey = none ∧ d.streamUrl = none ∧ d.lastStreamEndTime = none) := by
  have hmiss : ∀ (now : Int) (findByUsername : Str → Option UserRec)
      (username : Str) (d : StreamDataOut),
      publicStatusMiss now findByUsername username = some d →
      d.streamKey = none ∧ d.streamUrl = none ∧ d.lastStreamEndTime = none := by
    intro now findByUsername username d h
    unfold publicStatusMiss at h
    cases hfind : findByUsername username with
    | none => rw [hfind] at h; exact absurd h (by simp)
    | some u =>
      rw [hfind] at h
      simp only [] at h
      split_ifs at h with hact
      obtain rfl : formatUserStreamData now u false = d := by
        injection h
      exact ⟨rfl, rfl, rfl⟩
  constructor
  · intro now u
    exact ⟨rfl, rfl, rfl, rfl⟩
  · intro now cache findByUsername username d h
    unfold publicStatusRoute at h
    cases hc : cache username with
    | none => rw [hc] at h; exact hmiss now findByUsername username d h
    | some entry =>
      rw [hc] at h
      simp only [] at h
      by_cases hfresh : now - entry.2 < 60000
      · rw [if_pos hfresh] at h
        obtain rfl : _ = d := by injection h
        exact ⟨rfl, rfl, rfl⟩
      · rw [if_neg hfresh] at h
        exact hmiss now findByUsername username d h

/-- Witness for C9 at a concrete user served from the store path: the
public body hides the secret fields, the own-status body carries the
key. -/
theorem publicStatus_no_secret_fields_witness :
    (publicStatusRoute 1000 (fun _ => none)
        (fun n => if n = "alice".data then
            some ⟨"u1".data, "alice".data, "alice_k1_0123456789abcdef".data,
              true, some 500, none⟩
          else none)
        "alice".data).isSome = true ∧
    (∀ d, publicStatusRoute 1000 (fun _ => none)
        (fun n => if n = "alice".data then
            some ⟨"u1".data, "alice".data, "alice_k1_0123456789abcdef".data,
              true, some 500, none⟩
          else none)
        "alice".data = some d →
      d.streamKey = none ∧ d.streamUrl = none ∧ d.lastStreamEndTime = none) ∧
    (formatUserStreamData 1000
        ⟨"u1".data, "alice".data, "alice_k1_0123456789abcdef".data,
          true, some 500, none⟩ true).streamKey =
      some "alice_k1_0123456789abcdef".data := by
  refine ⟨by decide, ?_, ?_⟩
  · intro d hd
    exact publicStatus_no_secret_fields.2 1000 (fun _ => none)
      (fun n => if n = "alice".data then
          some ⟨"u1".data, "alice".data, "alice_k1_0123456789abcdef".data,
            true, some 500, none⟩
        else none)
      "alice".data d hd
  · exact (publicStatus_no_secret_fields.1 1000
      ⟨"u1".data, "alice".data, "alice_k1_0123456789abcdef".data,
        true, some 500, none⟩).2.2.2

/-- Witness for C2 at a concrete well-formed key string. -/
theorem validateStreamKey_accepts_iff_witness :
    validateStreamKey (JsValue.str "abc_def-0123".data) = true :=
  (validateStreamKey_accepts_iff (JsValue.str "abc_def-0123".data)).2
    ⟨"abc_def-0123".data, rfl, by decide, by decide, by decide, by decide⟩

/-- Witness for C4 at a concrete record 600 ms after its last publish
event. -/
theorem isUserStreaming_iff_witness :
    isUserStreaming 1000 (some ⟨some 400⟩) = true :=
  (isUserStreaming_iff 1000 (some ⟨some 400⟩)).2
    ⟨⟨some 400⟩, 400, rfl, rfl, by decide, by decide⟩
